import Mathlib

/-!
Verification development for the Gemini batch image pipeline
(`download_images.py` together with the scan of `submit_image_batch.py`).

The Python sources are shallowly embedded: strings are Lean `String`
(manipulated through their character lists so that everything evaluates in
the kernel), the file system is an explicit map from paths to contents, and
the effectful per-record processing of `download_images.download_images`
becomes a pure function returning the list of file writes, quarantine
copies and log events it would perform, in order.
-/

namespace Pipeline

/-! ## String helpers mirroring the Python string operations used -/

/-- List-level check that the first list is an initial segment of the second. -/
def listIsPre : List Char → List Char → Bool
  | [], _ => true
  | _ :: _, [] => false
  | a :: xs, b :: ys => a = b && listIsPre xs ys

/-- Model of Python `s.startswith(pre)`. -/
def pyStartswith (s pre : String) : Bool :=
  listIsPre pre.data s.data

/-- Model of Python `s.endswith(suf)`. -/
def pyEndswith (s suf : String) : Bool :=
  listIsPre suf.data.reverse s.data.reverse

/-- ASCII lowering of one character, as Python `str.lower` acts on ASCII. -/
def lowerChar (c : Char) : Char :=
  if 'A' ≤ c ∧ c ≤ 'Z' then Char.ofNat (c.toNat + 32) else c

/-- Model of Python `s.lower()` (ASCII fragment, which is all the code feeds it). -/
def pyLower (s : String) : String :=
  ⟨s.data.map lowerChar⟩

/-- Model of Python `s.strip()`: drop leading and trailing whitespace. -/
def pyStrip (s : String) : String :=
  ⟨((s.data.dropWhile Char.isWhitespace).reverse.dropWhile Char.isWhitespace).reverse⟩

/-- Model of `os.path.join(a, b)` on a POSIX system (the separator is `/`). -/
def pyJoin (a b : String) : String :=
  if pyStartswith b "/" then b
  else if a = "" then b
  else if pyEndswith a "/" then a ++ b
  else a ++ "/" ++ b

/-- Index of the last occurrence of a character, i.e. Python `s.rfind(c)`
restricted to single-character needles (`none` for `-1`). -/
def strRfind (c : Char) : List Char → Option Nat
  | [] => none
  | x :: xs =>
    match strRfind c xs with
    | some n => some (n + 1)
    | none => if x = c then some 0 else none

/-- Model of `os.path.splitext` on POSIX: split at the last dot of the final
path component, unless the characters between the component start and that
dot are all dots (so a pure leading-dot name keeps an empty extension). -/
def pySplitext (p : String) : String × String :=
  let cs := p.data
  let sepI : Int := match strRfind '/' cs with | some n => (n : Int) | none => -1
  let dotI : Int := match strRfind '.' cs with | some n => (n : Int) | none => -1
  if sepI < dotI then
    let fstart : Nat := (sepI + 1).toNat
    if ((cs.drop fstart).take (dotI.toNat - fstart)).any (fun ch => ch ≠ '.') then
      (⟨cs.take dotI.toNat⟩, ⟨cs.drop dotI.toNat⟩)
    else (p, "")
  else (p, "")

/-! ## Data model of a parsed result line (download_images.py, lines 244-311)

A JSONL line that parses successfully yields an `Item`; `Part`, `Candidate`
and `Item` keep exactly the fields the script reads.  A missing `content`
or `parts` key in a candidate is the empty parts list, as produced by
`candidate.get("content", \x7b\x7d).get("parts", [])`. -/

/-- One element of `content.parts`: the inline image payload may sit under
either of the two accepted key spellings; `some d` means the key is present
with base64 field `data = d`. -/
structure Part where
  inline_data : Option String
  inlineData : Option String
  deriving DecidableEq, Repr

/-- One element of `response.candidates`. -/
structure Candidate where
  parts : List Part
  deriving DecidableEq, Repr

/-- One parsed JSONL record: `custom_id` if the key is present, the
record-level `error` message if the `error` key is present, and the
candidate list of the `response` object (empty when absent). -/
structure Item where
  custom_id : Option String
  error : Option String
  candidates : List Candidate
  deriving DecidableEq, Repr

/-- Outcome of `json.loads` plus the blank-line check on one raw line of the
downloaded document (lines 240-245). -/
inductive RawLine where
  | blank : RawLine
  | malformed : RawLine
  | parsed : Item → RawLine
  deriving DecidableEq, Repr

/-- The image payload the inner part loop (lines 300-311) extracts: the
first part carrying `inline_data` (checked first) or `inlineData` stops the
scan via `break`. -/
def partImage (p : Part) : Option String :=
  match p.inline_data with
  | some d => some d
  | none => p.inlineData

/-- Scan the parts in order and stop at the first one that carries an
inline payload key, as the `for part in parts` loop with `break` does. -/
def firstImage : List Part → Option String
  | [] => none
  | p :: ps =>
    match partImage p with
    | some d => some d
    | none => firstImage ps

/-- The effective correlation key:
`item.get("custom_id", f"unknown_\x7bline_num\x7d")` (line 246). -/
def effCustomId (it : Item) (lineNum : Nat) : String :=
  match it.custom_id with
  | some s => s
  | none => "unknown_" ++ toString lineNum

/-! ## Processing context and effects -/

/-- Ambient data of one job while its records are processed: the base64
decoder, the input-image file system (path to byte content), the input root
(`INPUT_BASE_DIR`) and the job output directory. -/
structure Ctx where
  dec : String → String
  fs : String → Option String
  inputBase : String
  jobDir : String

/-- Log events corresponding to the print sites of the record loop. -/
inductive LogEv where
  | errorItem : String → String → LogEv
  | noCandidates : String → LogEv
  | noParts : String → LogEv
  | noImageInCandidate : Nat → String → LogEv
  | saved : Nat → String → LogEv
  | parseFail : LogEv
  deriving DecidableEq, Repr

/-- Accumulated side effects of processing: image files written under the
job directory (path, bytes), quarantine copies performed (destination path,
bytes), the number of calls made to `_copy_failed_to_unprocessed`, and log
events. -/
structure Eff where
  saves : List (String × String)
  copies : List (String × String)
  copyCalls : Nat
  logs : List LogEv
  deriving DecidableEq, Repr

/-- The empty effect. -/
def Eff.empty : Eff := ⟨[], [], 0, []⟩

/-- Sequencing of effects. -/
def Eff.app (a b : Eff) : Eff :=
  ⟨a.saves ++ b.saves, a.copies ++ b.copies, a.copyCalls + b.copyCalls, a.logs ++ b.logs⟩

/-- Model of `_copy_failed_to_unprocessed` (lines 76-95): skip empty keys
and keys starting with `unknown_`; otherwise, when the source file exists
under the input root, copy its bytes to
`job_output_dir/unprocessed/<custom_id>`. -/
def copyFailed (ctx : Ctx) (cid : String) : List (String × String) :=
  if cid = "" then []
  else if pyStartswith cid "unknown_" then []
  else
    match ctx.fs (pyJoin ctx.inputBase cid) with
    | none => []
    | some bytes => [(pyJoin (pyJoin ctx.jobDir "unprocessed") cid, bytes)]

/-- The filename chosen at lines 313-322: with more than one candidate the
1-based candidate number is inserted before the extension, otherwise the
correlation key is used as is. -/
def candFileName (cid : String) (nCands i : Nat) : String :=
  if nCands > 1 then
    (pySplitext cid).1 ++ "_c" ++ toString (i + 1) ++ (pySplitext cid).2
  else cid

/-- One iteration of the candidate loop (lines 292-353) at 0-based index
`i`, threading the running `saved_count`.  Candidates with an empty parts
list are skipped silently; a truthy payload is decoded and written (with
the progress print gated on the updated count); otherwise the failure is
logged and the input quarantined. -/
def candStep (ctx : Ctx) (cid : String) (nCands i : Nat) (c : Candidate) (cnt : Nat) :
    Eff × Nat :=
  if c.parts = [] then (Eff.empty, cnt)
  else
    match firstImage c.parts with
    | some s =>
      if s = "" then
        (⟨[], copyFailed ctx cid, 1, [LogEv.noImageInCandidate (i + 1) cid]⟩, cnt)
      else
        let path := pyJoin ctx.jobDir (candFileName cid nCands i)
        (⟨[(path, ctx.dec s)], [], 0,
          if cnt + 1 ≤ 10 ∨ (cnt + 1) % 200 = 0 then [LogEv.saved (cnt + 1) path] else []⟩,
         cnt + 1)
    | none =>
      (⟨[], copyFailed ctx cid, 1, [LogEv.noImageInCandidate (i + 1) cid]⟩, cnt)

/-- The candidate loop from index `i` with running saved count `cnt`. -/
def candLoopFrom (ctx : Ctx) (cid : String) (nCands : Nat) :
    Nat → Nat → List Candidate → Eff × Nat
  | _, cnt, [] => (Eff.empty, cnt)
  | i, cnt, c :: rest =>
    let r := candStep ctx cid nCands i c cnt
    let r2 := candLoopFrom ctx cid nCands (i + 1) r.2 rest
    (Eff.app r.1 r2.1, r2.2)

/-- Processing of one successfully parsed record (lines 246-353): the
record-level error branch, the empty-candidate-list branch, the pre-check
on the parts of the first candidate, and then the candidate loop. -/
def processItem (ctx : Ctx) (lineNum cnt : Nat) (it : Item) : Eff × Nat :=
  let cid := effCustomId it lineNum
  match it.error with
  | some msg => (⟨[], copyFailed ctx cid, 1, [LogEv.errorItem cid msg]⟩, cnt)
  | none =>
    match it.candidates with
    | [] => (⟨[], copyFailed ctx cid, 1, [LogEv.noCandidates cid]⟩, cnt)
    | c0 :: _ =>
      if c0.parts = [] then
        (⟨[], copyFailed ctx cid, 1, [LogEv.noParts cid]⟩, cnt)
      else
        candLoopFrom ctx cid it.candidates.length 0 cnt it.candidates

/-- Processing of one raw line (lines 240-359): blank lines are skipped,
unparsable lines are logged and skipped, parsed records are processed. -/
def processLine (ctx : Ctx) (lineNum cnt : Nat) : RawLine → Eff × Nat
  | RawLine.blank => (Eff.empty, cnt)
  | RawLine.malformed => (⟨[], [], 0, [LogEv.parseFail]⟩, cnt)
  | RawLine.parsed it => processItem ctx lineNum cnt it

/-- The line loop from line index `i` with running saved count `cnt`. -/
def processLinesFrom (ctx : Ctx) : Nat → Nat → List RawLine → Eff × Nat
  | _, cnt, [] => (Eff.empty, cnt)
  | i, cnt, l :: ls =>
    let r := processLine ctx i cnt l
    let r2 := processLinesFrom ctx (i + 1) r.2 ls
    (Eff.app r.1 r2.1, r2.2)

/-- Processing of the whole downloaded document, as the `enumerate(f)` loop
starting at line 0 with `saved_count = 0`. -/
def processLines (ctx : Ctx) (doc : List RawLine) : Eff × Nat :=
  processLinesFrom ctx 0 0 doc

/-! ## Job-level model (download_images.py, lines 197-379) -/

/-- The skip-rule test of line 199: a directory entry counts as an existing
image when its lowercase form ends in `.jpg`, `.png` or `.jpeg`. -/
def recognizedImage (f : String) : Bool :=
  pyEndswith (pyLower f) ".jpg" || pyEndswith (pyLower f) ".png" ||
    pyEndswith (pyLower f) ".jpeg"

/-- The input scan of submit_image_batch.py, line 86: a file is accepted
when its lowercase form ends in `.jpg`, `.jpeg`, `.png` or `.webp`. -/
def uploaderAccepts (f : String) : Bool :=
  pyEndswith (pyLower f) ".jpg" || pyEndswith (pyLower f) ".jpeg" ||
    pyEndswith (pyLower f) ".png" || pyEndswith (pyLower f) ".webp"

/-- The correlation keys a submission derives from an input directory
listing: the accepted filenames, used verbatim as `custom_id`
(submit_image_batch.py, lines 86 and 135). -/
def batchCustomIds (files : List String) : List String :=
  files.filter uploaderAccepts

/-- Existence flags for the two transient artifacts of one download
attempt: the temporary result file of this attempt and the crash-recovery
marker file. -/
structure FsFlags where
  tmp : Bool
  marker : Bool
  deriving DecidableEq, Repr

/-- Oracle for the fallible steps of one download-and-process attempt:
whether creating the named temporary file succeeds, whether writing the
marker succeeds, whether the streaming download succeeds, whether reopening
the temp file for reading succeeds, and the parsed content of the document
when it is read. -/
structure AttemptEnv where
  tmpCreateOk : Bool
  markerWriteOk : Bool
  streamOk : Bool
  readOk : Bool
  doc : List RawLine
  deriving Repr

/-- Outcome of one attempt: how many network download calls were issued,
the record-processing effects, the final saved count, the final state of
the temp file and marker, and whether the outer exception handler fired. -/
structure AttemptResult where
  networkCalls : Nat
  eff : Eff
  savedCount : Nat
  tmpExists : Bool
  markerExists : Bool
  aborted : Bool
  deriving Repr

/-- One download-and-process attempt (lines 213-379), translated branch by
branch.  Each exit path performs in order exactly the unlinks the Python
control flow performs there: the inner `except` block (lines 226-235)
removes the temp file and the marker before re-raising, the success path
removes them at lines 361-365, and the `finally` block (lines 370-379)
removes the temp file when `tmp_path` was ever set and always removes the
marker. -/
def runAttempt (ctx : Ctx) (env : AttemptEnv) (st0 : FsFlags) : AttemptResult :=
  if env.tmpCreateOk then
    let st1 : FsFlags := ⟨true, st0.marker⟩
    if env.markerWriteOk then
      let st2 : FsFlags := ⟨st1.tmp, true⟩
      if env.streamOk then
        if env.readOk then
          let r := processLinesFrom ctx 0 0 env.doc
          let st3 : FsFlags := ⟨false, st2.marker⟩
          let st4 : FsFlags := ⟨st3.tmp, false⟩
          let st5 : FsFlags := ⟨false, st4.marker⟩
          let st6 : FsFlags := ⟨st5.tmp, false⟩
          ⟨1, r.1, r.2, st6.tmp, st6.marker, false⟩
        else
          let st5 : FsFlags := ⟨false, false⟩
          ⟨1, Eff.empty, 0, st5.tmp, st5.marker, true⟩
      else
        let stA : FsFlags := ⟨false, false⟩
        let st5 : FsFlags := ⟨stA.tmp, stA.marker⟩
        ⟨1, Eff.empty, 0, st5.tmp, st5.marker, true⟩
    else
      let stA : FsFlags := ⟨false, false⟩
      let st5 : FsFlags := ⟨stA.tmp, stA.marker⟩
      ⟨0, Eff.empty, 0, st5.tmp, st5.marker, true⟩
  else
    let st5 : FsFlags := ⟨st0.tmp, false⟩
    ⟨0, Eff.empty, 0, st5.tmp, st5.marker, true⟩

/-- Observable situation of one completed job before processing: whether
its output directory exists, the directory listing when it does, whether
the job carries a destination result file, and the oracle for the attempt. -/
structure JobEnv where
  dirExists : Bool
  listing : List String
  hasDest : Bool
  attempt : AttemptEnv
  deriving Repr

/-- Outcome of handling one completed job. -/
structure JobOutcome where
  skipped : Bool
  madeDir : Bool
  networkCalls : Nat
  eff : Eff
  tmpExists : Bool
  markerExists : Bool
  deriving Repr

/-- Handling of one completed job (lines 197-379): the skip rule of lines
197-202 fires when the output directory exists and already holds a
recognized image file; otherwise the directory is created, a job without a
destination file is reported and skipped over, and the remaining jobs run
one download-and-process attempt. -/
def runJob (ctx : Ctx) (env : JobEnv) (st0 : FsFlags) : JobOutcome :=
  let proceed : JobOutcome :=
    if env.hasDest then
      let r := runAttempt ctx env.attempt st0
      ⟨false, true, r.networkCalls, r.eff, r.tmpExists, r.markerExists⟩
    else
      ⟨false, true, 0, Eff.empty, st0.tmp, st0.marker⟩
  if env.dirExists then
    if env.listing.filter recognizedImage ≠ [] then
      ⟨true, false, 0, Eff.empty, st0.tmp, st0.marker⟩
    else proceed
  else proceed

/-! ## Startup crash recovery (_check_clean_previous_temp, lines 24-46) -/

/-- State seen by the startup check: whether the marker file exists,
whether reading it succeeds (an OSError on read yields the empty string),
its raw content, and the list of existing files. -/
structure TempState where
  markerExists : Bool
  markerReadOk : Bool
  markerContent : String
  files : List String
  deriving Repr

/-- Log events of the startup check. -/
inductive CleanLog where
  | removedLeftover : String → CleanLog
  | alreadyDeleted : CleanLog
  deriving DecidableEq, Repr

/-- Model of `_check_clean_previous_temp`: return at once when no marker
exists; otherwise read and strip the recorded path (empty on read error),
unlink the marker, and - when the path is non-empty - delete the named
file if it still exists, or report the clean exit if it does not. -/
def checkCleanPreviousTemp (st : TempState) : TempState × List CleanLog :=
  if st.markerExists then
    let prev := if st.markerReadOk then pyStrip st.markerContent else ""
    let st1 : TempState := { st with markerExists := false }
    if prev = "" then (st1, [])
    else if st1.files.contains prev then
      ({ st1 with files := st1.files.erase prev }, [CleanLog.removedLeftover prev])
    else
      (st1, [CleanLog.alreadyDeleted])
  else (st, [])

/-! ## Spec-side naming rule -/

/-- Modelled from the spec: the OutputArtifact naming rule of sections 3
and 8 - if a record yields exactly one candidate, filename equals the
correlation key; if it yields more than one, the correlation key gets an
inserted `_c<N>` suffix (1-based) before the extension; one file, holding
the decoded payload, per candidate that actually contains image data. -/
def specNamedSaves (ctx : Ctx) (cid : String) (cands : List Candidate) :
    List (String × String) :=
  cands.enum.filterMap (fun ic =>
    match firstImage ic.2.parts with
    | some s =>
      if s = "" then none
      else
        some (pyJoin ctx.jobDir
          (if cands.length = 1 then cid
           else (pySplitext cid).1 ++ "_c" ++ toString (ic.1 + 1) ++ (pySplitext cid).2),
          ctx.dec s)
    | none => none)

/-! ## Concrete instances used by counterexamples and witnesses -/

/-- A context whose decoder is the identity and whose input root holds the
two files `b.png` and `unknown_z.jpg`. -/
def ctxEx : Ctx :=
  ⟨fun s => s,
   fun p =>
     if p = "input_images/b.png" then some "SRCBYTES"
     else if p = "input_images/unknown_z.jpg" then some "ORIGBYTES"
     else none,
   "input_images", "generated_images/job_x"⟩

/-- Record whose first candidate has an empty parts list while the second
candidate carries an inline image payload. -/
def itemFirstEmpty : Item :=
  ⟨some "a.png", none, [⟨[]⟩, ⟨[⟨some "Zm9v", none⟩]⟩]⟩

/-- Record whose first candidate yields an image while the second has a
non-empty parts list without any image payload. -/
def itemMixed : Item :=
  ⟨some "b.png", none, [⟨[⟨some "IMG1", none⟩]⟩, ⟨[⟨none, none⟩]⟩]⟩

/-- Error record whose correlation key starts with `unknown_` yet names an
existing input file. -/
def itemUnknownErr : Item :=
  ⟨some "unknown_z.jpg", some "boom", []⟩

/-- Ordinary two-candidate success record. -/
def itemTwoGood : Item :=
  ⟨some "c.png", none, [⟨[⟨some "AAA", none⟩]⟩, ⟨[⟨none, some "BBB"⟩]⟩]⟩

/-- Ordinary one-candidate success record. -/
def itemOneGood : Item :=
  ⟨some "a.png", none, [⟨[⟨some "Zm9v", none⟩]⟩]⟩

/-- An attempt oracle where every step succeeds on an empty document. -/
def attemptAllOk : AttemptEnv := ⟨true, true, true, true, []⟩

/-- A job whose output directory exists and contains only a webp file. -/
def envWebp : JobEnv := ⟨true, ["a.webp"], true, attemptAllOk⟩

/-- A job whose output directory exists and contains a jpg file. -/
def envDoneJpg : JobEnv := ⟨true, ["a.jpg"], true, attemptAllOk⟩

/-- Error record with a usable correlation key naming an existing input. -/
def itemErrB : Item := ⟨some "b.png", some "blocked", []⟩

/-- Record with a missing custom_id key. -/
def itemNoId : Item := ⟨none, some "x", []⟩

/-! ## Helper lemmas -/

theorem Eff.app_saves (a b : Eff) : (Eff.app a b).saves = a.saves ++ b.saves := rfl

theorem Eff.app_copies (a b : Eff) : (Eff.app a b).copies = a.copies ++ b.copies := rfl

theorem Eff.app_copyCalls (a b : Eff) :
    (Eff.app a b).copyCalls = a.copyCalls + b.copyCalls := rfl

theorem Eff.app_logs (a b : Eff) : (Eff.app a b).logs = a.logs ++ b.logs := rfl

theorem Eff.app_empty (e : Eff) : Eff.app Eff.empty e = e := by
  cases e; simp [Eff.app, Eff.empty]

theorem Eff.app_assoc (a b c : Eff) : Eff.app (Eff.app a b) c = Eff.app a (Eff.app b c) := by
  cases a; cases b; cases c; simp [Eff.app, Nat.add_assoc]

theorem strData_append (s t : String) : (s ++ t).data = s.data ++ t.data := by
  cases s; cases t; rfl

theorem listIsPre_append : ∀ xs ys : List Char, listIsPre xs (xs ++ ys) = true := by
  intro xs
  induction xs with
  | nil => intro ys; rfl
  | cons a l ih => intro ys; simp [listIsPre, ih]

theorem pyStartswith_unknown (t : String) :
    pyStartswith ("unknown_" ++ t) "unknown_" = true := by
  unfold pyStartswith
  rw [strData_append]
  exact listIsPre_append _ _

theorem copyFailed_guarded (ctx : Ctx) (cid : String)
    (h : cid = "" ∨ pyStartswith cid "unknown_" = true) : copyFailed ctx cid = [] := by
  unfold copyFailed
  rcases h with h | h
  · simp [h]
  · by_cases h0 : cid = ""
    · simp [h0]
    · simp [h0, h]

theorem firstImage_ne_nil {l : List Part} {s : String} (h : firstImage l = some s) :
    l ≠ [] := by
  intro hl
  rw [hl] at h
  exact Option.noConfusion h

theorem candStep_copies_nil (ctx : Ctx) (cid : String) (nCands i : Nat) (c : Candidate)
    (cnt : Nat) (h : copyFailed ctx cid = []) :
    (candStep ctx cid nCands i c cnt).1.copies = [] := by
  unfold candStep
  split
  · rfl
  · split
    · split <;> simp [h]
    · simp [h]

theorem candLoop_copies_nil (ctx : Ctx) (cid : String) (nCands : Nat)
    (h : copyFailed ctx cid = []) :
    ∀ (l : List Candidate) (start cnt : Nat),
      (candLoopFrom ctx cid nCands start cnt l).1.copies = [] := by
  intro l
  induction l with
  | nil => intro start cnt; rfl
  | cons c rest ih =>
    intro start cnt
    simp [candLoopFrom, Eff.app_copies, candStep_copies_nil ctx cid nCands start c cnt h, ih]

theorem candStep_copyCalls_zero_iff (ctx : Ctx) (cid : String) (nCands i : Nat)
    (c : Candidate) (cnt : Nat) :
    (candStep ctx cid nCands i c cnt).1.copyCalls = 0
      ↔ (c.parts ≠ [] → ∃ s, firstImage c.parts = some s ∧ s ≠ "") := by
  unfold candStep
  by_cases hp : c.parts = []
  · simp [hp, Eff.empty]
  · cases hf : firstImage c.parts with
    | none => simp [hp, hf]
    | some s =>
      by_cases hs : s = ""
      · subst hs
        simp [hp, hf]
      · simp [hp, hf, hs]

theorem candLoop_copyCalls_zero_iff (ctx : Ctx) (cid : String) (nCands : Nat) :
    ∀ (l : List Candidate) (start cnt : Nat),
      (candLoopFrom ctx cid nCands start cnt l).1.copyCalls = 0
        ↔ ∀ c ∈ l, c.parts ≠ [] → ∃ s, firstImage c.parts = some s ∧ s ≠ "" := by
  intro l
  induction l with
  | nil => intro start cnt; simp [candLoopFrom, Eff.empty]
  | cons c rest ih =>
    intro start cnt
    simp only [candLoopFrom, Eff.app_copyCalls, Nat.add_eq_zero, List.mem_cons]
    rw [candStep_copyCalls_zero_iff, ih]
    constructor
    · rintro ⟨h1, h2⟩ x hx
      rcases hx with rfl | hx
      · exact h1
      · exact h2 x hx
    · intro h
      exact ⟨h c (Or.inl rfl), fun x hx => h x (Or.inr hx)⟩

theorem enumFrom_mem_of_get {α : Type} (start i : Nat) (l : List α) (c : α)
    (h : l.get? i = some c) : (start + i, c) ∈ List.enumFrom start l := by
  induction l generalizing start i with
  | nil => simp [List.get?] at h
  | cons x xs ih =>
    cases i with
    | zero =>
      simp [List.get?] at h
      subst h
      simp [List.enumFrom]
    | succ n =>
      have hmem := ih (start + 1) n (by simpa [List.get?] using h)
      have harr : start + (n + 1) = start + 1 + n := by omega
      rw [harr]
      simp only [List.enumFrom, List.mem_cons]
      exact Or.inr hmem

theorem candLoop_saves_eq (ctx : Ctx) (cid : String) (nCands : Nat) :
    ∀ (l : List Candidate) (start cnt : Nat),
      (candLoopFrom ctx cid nCands start cnt l).1.saves
        = (List.enumFrom start l).filterMap (fun ic =>
            match firstImage ic.2.parts with
            | some s =>
              if s = "" then none
              else some (pyJoin ctx.jobDir (candFileName cid nCands ic.1), ctx.dec s)
            | none => none) := by
  intro l
  induction l with
  | nil => intro start cnt; rfl
  | cons c rest ih =>
    intro start cnt
    by_cases hp : c.parts = []
    · have hf : firstImage c.parts = none := by rw [hp]; rfl
      simp [candLoopFrom, Eff.app_saves, candStep, hp, List.enumFrom,
        List.filterMap_cons, hf, ih, firstImage, Eff.empty]
    · cases hf : firstImage c.parts with
      | none =>
        simp [candLoopFrom, Eff.app_saves, candStep, hp, hf, List.enumFrom,
          List.filterMap_cons, ih]
      | some s =>
        by_cases hs : s = ""
        · subst hs
          simp [candLoopFrom, Eff.app_saves, candStep, hp, hf, List.enumFrom,
            List.filterMap_cons, ih]
        · simp [candLoopFrom, Eff.app_saves, candStep, hp, hf, hs, List.enumFrom,
            List.filterMap_cons, ih]

theorem candFileName_eq_specName (cid : String) (n i : Nat) (h : 0 < n) :
    candFileName cid n i
      = (if n = 1 then cid
         else (pySplitext cid).1 ++ "_c" ++ toString (i + 1) ++ (pySplitext cid).2) := by
  unfold candFileName
  rcases Nat.lt_or_ge 1 n with h1 | h1
  · rw [if_pos h1, if_neg (by omega)]
  · have : n = 1 := by omega
    subst this
    simp

theorem processLinesFrom_append (ctx : Ctx) :
    ∀ (xs ys : List RawLine) (i cnt : Nat),
      processLinesFrom ctx i cnt (xs ++ ys)
        = (Eff.app (processLinesFrom ctx i cnt xs).1
            (processLinesFrom ctx (i + xs.length) (processLinesFrom ctx i cnt xs).2 ys).1,
           (processLinesFrom ctx (i + xs.length) (processLinesFrom ctx i cnt xs).2 ys).2) := by
  intro xs
  induction xs with
  | nil =>
    intro ys i cnt
    simp [processLinesFrom, Eff.app_empty]
  | cons l ls ih =>
    intro ys i cnt
    have harr : i + (ls.length + 1) = i + 1 + ls.length := by omega
    simp only [List.cons_append, processLinesFrom, List.append_eq, ih,
      List.length_cons, harr, Eff.app_assoc]

/-! ## Claim C1 -/

/-- C1: the claim that every candidate carrying an inline image payload is
decoded and written even when an earlier candidate of the same record has
an empty content-parts list is false at this record: its first candidate
has an empty parts list, its second candidate carries a payload, yet no
file at all is written because the pre-check on the first candidate skips
the whole record. -/
theorem c1_counterexample :
    itemFirstEmpty.error = none ∧
    itemFirstEmpty.candidates.get? 1 = some ⟨[⟨some "Zm9v", none⟩]⟩ ∧
    firstImage [⟨some "Zm9v", none⟩] = some "Zm9v" ∧
    (processItem ctxEx 0 0 itemFirstEmpty).1.saves = [] := by
  exact ⟨rfl, rfl, rfl, by decide⟩

/-- C1 (amended): in an error-free record whose first candidate has a
non-empty content-parts list, every candidate carrying a non-empty inline
image payload has its image decoded and written to the corresponding
output path, even when an earlier candidate lacks an image payload. -/
theorem c1_amended_images_written (ctx : Ctx) (lineNum cnt : Nat) (it : Item)
    (c0 c : Candidate) (i : Nat) (s : String)
    (he : it.error = none) (h0 : it.candidates.head? = some c0)
    (hp : c0.parts ≠ []) (hi : it.candidates.get? i = some c)
    (hs : firstImage c.parts = some s) (hne : s ≠ "") :
    (pyJoin ctx.jobDir (candFileName (effCustomId it lineNum) it.candidates.length i),
        ctx.dec s)
      ∈ (processItem ctx lineNum cnt it).1.saves := by
  cases hcand : it.candidates with
  | nil => rw [hcand] at h0; exact Option.noConfusion h0
  | cons cH rest =>
    have hH : cH = c0 := by
      rw [hcand] at h0
      simpa [List.head?] using h0
    subst hH
    rw [hcand] at hi
    simp only [processItem, he, hcand, if_neg hp]
    rw [candLoop_saves_eq]
    rw [List.mem_filterMap]
    refine ⟨(0 + i, c), enumFrom_mem_of_get 0 i (cH :: rest) c hi, ?_⟩
    simp [hs, hne, Nat.zero_add]

/-- C1 witness: in the two-candidate record itemTwoGood the second
candidate (index 1) carries payload BBB and its decoded image is written. -/
theorem c1_witness :
    itemTwoGood.error = none ∧
    (pyJoin ctxEx.jobDir (candFileName (effCustomId itemTwoGood 0)
        itemTwoGood.candidates.length 1), ctxEx.dec "BBB")
      ∈ (processItem ctxEx 0 0 itemTwoGood).1.saves :=
  ⟨rfl,
   c1_amended_images_written ctxEx 0 0 itemTwoGood ⟨[⟨some "AAA", none⟩]⟩
     ⟨[⟨none, some "BBB"⟩]⟩ 1 "BBB" rfl rfl (by decide) rfl rfl (by decide)⟩

/-! ## Claim C2 -/

/-- C2: the claim that a record in which at least one candidate yields an
image never causes a quarantine copy is false at this record: its first
candidate yields an image that is saved, yet the second candidate, having
parts but no payload, still triggers a quarantine copy of the input. -/
theorem c2_counterexample :
    itemMixed.error = none ∧
    (processItem ctxEx 0 0 itemMixed).1.saves
      = [("generated_images/job_x/b_c1.png", "IMG1")] ∧
    (processItem ctxEx 0 0 itemMixed).1.copies
      = [("generated_images/job_x/unprocessed/b.png", "SRCBYTES")] := by
  exact ⟨rfl, by decide, by decide⟩

/-- C2 (amended): in an error-free record that passes the first-candidate
pre-check, a quarantine copy is attempted once per candidate that has a
non-empty parts list but no non-empty inline image payload, regardless of
what other candidates produced; no quarantine attempt is made for the
record if and only if every candidate with a non-empty parts list yields a
non-empty image payload. -/
theorem c2_amended_quarantine_per_candidate (ctx : Ctx) (lineNum cnt : Nat)
    (it : Item) (c0 : Candidate)
    (he : it.error = none) (h0 : it.candidates.head? = some c0) (hp : c0.parts ≠ []) :
    (processItem ctx lineNum cnt it).1.copyCalls = 0
      ↔ ∀ c ∈ it.candidates, c.parts ≠ [] → ∃ s, firstImage c.parts = some s ∧ s ≠ "" := by
  cases hcand : it.candidates with
  | nil => rw [hcand] at h0; exact Option.noConfusion h0
  | cons cH rest =>
    have hH : cH = c0 := by
      rw [hcand] at h0
      simpa [List.head?] using h0
    subst hH
    simp only [processItem, he, hcand, if_neg hp]
    exact candLoop_copyCalls_zero_iff ctx (effCustomId it lineNum)
      (cH :: rest).length (cH :: rest) 0 cnt

/-- C2 witness: itemMixed has a candidate with parts and no payload, so
the amended equivalence applies to it concretely. -/
theorem c2_witness :
    itemMixed.error = none ∧
    ((processItem ctxEx 0 0 itemMixed).1.copyCalls = 0
      ↔ ∀ c ∈ itemMixed.candidates, c.parts ≠ [] →
          ∃ s, firstImage c.parts = some s ∧ s ≠ "") :=
  ⟨rfl,
   c2_amended_quarantine_per_candidate ctxEx 0 0 itemMixed ⟨[⟨some "IMG1", none⟩]⟩
     rfl rfl (by decide)⟩

/-! ## Claim C3 -/

/-- C3: for every record that passes the pre-checks, the files actually
written by the candidate loop are exactly those demanded by the spec
naming rule: with exactly one candidate the filename is the correlation
key, with more than one each image-bearing candidate gets the 1-based
c-suffix inserted before the extension, one file per candidate that
actually contains image data. -/
theorem c3_naming (ctx : Ctx) (lineNum cnt : Nat) (it : Item) (c0 : Candidate)
    (he : it.error = none) (h0 : it.candidates.head? = some c0) (hp : c0.parts ≠ []) :
    (processItem ctx lineNum cnt it).1.saves
      = specNamedSaves ctx (effCustomId it lineNum) it.candidates := by
  cases hcand : it.candidates with
  | nil => rw [hcand] at h0; exact Option.noConfusion h0
  | cons cH rest =>
    have hH : cH = c0 := by
      rw [hcand] at h0
      simpa [List.head?] using h0
    subst hH
    simp only [processItem, he, hcand, if_neg hp]
    rw [candLoop_saves_eq]
    unfold specNamedSaves
    have hlen : 0 < (cH :: rest).length := by simp
    have hfun :
        (fun ic : Nat × Candidate =>
          match firstImage ic.2.parts with
          | some s =>
            if s = "" then none
            else some (pyJoin ctx.jobDir
              (candFileName (effCustomId it lineNum) (cH :: rest).length ic.1),
              ctx.dec s)
          | none => none)
        = (fun ic : Nat × Candidate =>
          match firstImage ic.2.parts with
          | some s =>
            if s = "" then none
            else some (pyJoin ctx.jobDir
              (if (cH :: rest).length = 1 then effCustomId it lineNum
               else (pySplitext (effCustomId it lineNum)).1 ++ "_c" ++ toString (ic.1 + 1)
                 ++ (pySplitext (effCustomId it lineNum)).2),
              ctx.dec s)
          | none => none) := by
      funext ic
      rw [candFileName_eq_specName _ _ _ hlen]
    rw [hfun]
    rfl

/-- C3 witness: the single-candidate record itemOneGood is saved under the
correlation key itself, matching the spec naming function. -/
theorem c3_witness :
    itemOneGood.error = none ∧
    (processItem ctxEx 0 0 itemOneGood).1.saves
      = specNamedSaves ctxEx (effCustomId itemOneGood 0) itemOneGood.candidates :=
  ⟨rfl, c3_naming ctxEx 0 0 itemOneGood ⟨[⟨some "Zm9v", none⟩]⟩ rfl rfl (by decide)⟩

/-! ## Claim C4 -/

/-- C4: a job whose output directory already exists and contains at least
one recognized image file is skipped entirely: no network call is made for
it, nothing is written, and not even the directory-creation step runs, so
a repeated invocation is idempotent for already-completed jobs. -/
theorem c4_skip_completed_job (ctx : Ctx) (env : JobEnv) (st0 : FsFlags)
    (hd : env.dirExists = true)
    (hf : env.listing.filter recognizedImage ≠ []) :
    (runJob ctx env st0).skipped = true ∧
    (runJob ctx env st0).networkCalls = 0 ∧
    (runJob ctx env st0).eff = Eff.empty ∧
    (runJob ctx env st0).madeDir = false := by
  simp [runJob, hd, hf]

/-- C4 witness: a job directory already holding a jpg file is skipped. -/
theorem c4_witness :
    envDoneJpg.dirExists = true ∧
    envDoneJpg.listing.filter recognizedImage ≠ [] ∧
    ((runJob ctxEx envDoneJpg ⟨false, false⟩).skipped = true ∧
     (runJob ctxEx envDoneJpg ⟨false, false⟩).networkCalls = 0 ∧
     (runJob ctxEx envDoneJpg ⟨false, false⟩).eff = Eff.empty ∧
     (runJob ctxEx envDoneJpg ⟨false, false⟩).madeDir = false) :=
  ⟨rfl, by decide, c4_skip_completed_job ctxEx envDoneJpg ⟨false, false⟩ rfl (by decide)⟩

/-! ## Claim C5 -/

/-- C5: at startup, when the crash-recovery marker exists and is readable,
the marker is always cleared; if the recorded (stripped, non-empty) path
names an existing file that file is deleted, and if it names no existing
file nothing else changes and the check returns without error. -/
theorem c5_crash_recovery (st : TempState)
    (hm : st.markerExists = true) (hr : st.markerReadOk = true)
    (hp : pyStrip st.markerContent ≠ "") :
    (checkCleanPreviousTemp st).1.markerExists = false ∧
    (pyStrip st.markerContent ∈ st.files →
      (checkCleanPreviousTemp st).1.files = st.files.erase (pyStrip st.markerContent)) ∧
    (pyStrip st.markerContent ∉ st.files →
      (checkCleanPreviousTemp st).1.files = st.files) := by
  by_cases hmem : pyStrip st.markerContent ∈ st.files <;>
    simp [checkCleanPreviousTemp, hm, hr, hp, hmem]

/-- C5 witness: a marker naming the still-existing temp file
/tmp/x.jsonl (surrounded by whitespace in the marker) leads to that file
being erased and the marker cleared. -/
theorem c5_witness :
    (TempState.mk true true " /tmp/x.jsonl \n" ["/tmp/x.jsonl"]).markerExists = true ∧
    pyStrip " /tmp/x.jsonl \n" ≠ "" ∧
    ((checkCleanPreviousTemp
        (TempState.mk true true " /tmp/x.jsonl \n" ["/tmp/x.jsonl"])).1.markerExists
        = false ∧
     (pyStrip " /tmp/x.jsonl \n"
        ∈ (TempState.mk true true " /tmp/x.jsonl \n" ["/tmp/x.jsonl"]).files →
      (checkCleanPreviousTemp
        (TempState.mk true true " /tmp/x.jsonl \n" ["/tmp/x.jsonl"])).1.files
        = (TempState.mk true true " /tmp/x.jsonl \n" ["/tmp/x.jsonl"]).files.erase
            (pyStrip " /tmp/x.jsonl \n")) ∧
     (pyStrip " /tmp/x.jsonl \n"
        ∉ (TempState.mk true true " /tmp/x.jsonl \n" ["/tmp/x.jsonl"]).files →
      (checkCleanPreviousTemp
        (TempState.mk true true " /tmp/x.jsonl \n" ["/tmp/x.jsonl"])).1.files
        = (TempState.mk true true " /tmp/x.jsonl \n" ["/tmp/x.jsonl"]).files)) :=
  ⟨rfl, by decide,
   c5_crash_recovery (TempState.mk true true " /tmp/x.jsonl \n" ["/tmp/x.jsonl"])
     rfl rfl (by decide)⟩

/-! ## Claim C6 -/

/-- C6: on every exit path of one download-and-process attempt - success,
failed temp creation, failed marker write, streaming failure, or a failure
when reopening the result for processing - neither the temporary result
file nor the crash-recovery marker remains afterwards, whatever the
initial marker state was. -/
theorem c6_no_orphan_temp (ctx : Ctx) (env : AttemptEnv) (st0 : FsFlags)
    (h : st0.tmp = false) :
    (runAttempt ctx env st0).tmpExists = false ∧
    (runAttempt ctx env st0).markerExists = false := by
  rcases env with ⟨tc, mw, so, ro, doc⟩
  cases tc <;> cases mw <;> cases so <;> cases ro <;> simp [runAttempt, h]

/-- C6 witness: the all-success attempt, started with a stale marker
present, ends with no temp file and no marker. -/
theorem c6_witness :
    (FsFlags.mk false true).tmp = false ∧
    ((runAttempt ctxEx attemptAllOk ⟨false, true⟩).tmpExists = false ∧
     (runAttempt ctxEx attemptAllOk ⟨false, true⟩).markerExists = false) :=
  ⟨rfl, c6_no_orphan_temp ctxEx attemptAllOk ⟨false, true⟩ rfl⟩

/-! ## Claim C7 -/

/-- C7: the claim that every error record whose correlation key locates an
existing input file gets that file quarantined is false at this record:
the key unknown_z.jpg names an existing file under the input root, the
record carries a record-level error, yet no quarantine copy is made,
because the copy helper skips every key starting with the string
unknown_. -/
theorem c7_counterexample :
    itemUnknownErr.error = some "boom" ∧
    ctxEx.fs (pyJoin ctxEx.inputBase (effCustomId itemUnknownErr 0))
      = some "ORIGBYTES" ∧
    (processItem ctxEx 0 0 itemUnknownErr).1.copies = [] ∧
    (processItem ctxEx 0 0 itemUnknownErr).1.saves = [] := by
  exact ⟨rfl, by decide, by decide, rfl⟩

/-- C7 (amended): for every record with a record-level error whose
correlation key is non-empty, does not start with unknown_, and locates an
existing file under the input root, the input bytes are copied unchanged
to unprocessed/<same relative path> under the job directory, and the
record produces no output image artifact. -/
theorem c7_amended_error_quarantine (ctx : Ctx) (lineNum cnt : Nat) (it : Item)
    (msg bytes : String)
    (he : it.error = some msg)
    (hk : effCustomId it lineNum ≠ "")
    (hu : pyStartswith (effCustomId it lineNum) "unknown_" = false)
    (hf : ctx.fs (pyJoin ctx.inputBase (effCustomId it lineNum)) = some bytes) :
    (processItem ctx lineNum cnt it).1.saves = [] ∧
    (processItem ctx lineNum cnt it).1.copies
      = [(pyJoin (pyJoin ctx.jobDir "unprocessed") (effCustomId it lineNum), bytes)] := by
  simp [processItem, he, copyFailed, hk, hu, hf]

/-- C7 witness: the error record for b.png, whose source exists under the
input root, is quarantined byte-identically and saves nothing. -/
theorem c7_witness :
    itemErrB.error = some "blocked" ∧
    ((processItem ctxEx 0 0 itemErrB).1.saves = [] ∧
     (processItem ctxEx 0 0 itemErrB).1.copies
       = [(pyJoin (pyJoin ctxEx.jobDir "unprocessed") (effCustomId itemErrB 0),
           "SRCBYTES")]) :=
  ⟨rfl,
   c7_amended_error_quarantine ctxEx 0 0 itemErrB "blocked" "SRCBYTES"
     rfl (by decide) (by decide) (by decide)⟩

/-! ## Claim C8 -/

/-- C8: a line that fails to parse as JSON contributes exactly one
parse-failure log event - no saves, no quarantine copies, no saved-count
change - and the remaining lines of the stream are processed exactly as
they would be on their own, at their shifted line numbers. -/
theorem c8_malformed_line_skipped (ctx : Ctx) (pre post : List RawLine) (i cnt : Nat) :
    processLinesFrom ctx i cnt (pre ++ RawLine.malformed :: post)
      = (Eff.app (processLinesFrom ctx i cnt pre).1
          (Eff.app ⟨[], [], 0, [LogEv.parseFail]⟩
            (processLinesFrom ctx (i + pre.length + 1)
              (processLinesFrom ctx i cnt pre).2 post).1),
         (processLinesFrom ctx (i + pre.length + 1)
           (processLinesFrom ctx i cnt pre).2 post).2) := by
  rw [processLinesFrom_append]
  simp [processLinesFrom, processLine, Nat.add_assoc]

/-! ## Claim C9 -/

/-- C9: a failing record whose correlation key is missing (so the key is
synthesized as unknown_<line number>) or is the empty string never
produces a quarantine copy: the unprocessed directory is untouched for
that record. -/
theorem c9_synth_key_no_copy (ctx : Ctx) (lineNum cnt : Nat) (it : Item)
    (h : it.custom_id = none ∨ it.custom_id = some "") :
    (processItem ctx lineNum cnt it).1.copies = [] := by
  have hcf : copyFailed ctx (effCustomId it lineNum) = [] := by
    rcases h with h | h
    · exact copyFailed_guarded ctx _ (Or.inr (by
        simp only [effCustomId, h]
        exact pyStartswith_unknown (toString lineNum)))
    · exact copyFailed_guarded ctx _ (Or.inl (by simp [effCustomId, h]))
  unfold processItem
  cases he : it.error with
  | some msg => simp [hcf]
  | none =>
    cases hcand : it.candidates with
    | nil => simp [hcf]
    | cons c0 rest =>
      by_cases hp : c0.parts = []
      · simp [hp, hcf]
      · simp only [if_neg hp]
        exact candLoop_copies_nil ctx _ _ hcf _ _ _

/-- C9 witness: the error record with a missing custom_id key at line 0
copies nothing, although the input root does contain a file named
unknown_0. -/
theorem c9_witness :
    (itemNoId.custom_id = none ∨ itemNoId.custom_id = some "") ∧
    (processItem ctxEx 0 0 itemNoId).1.copies = [] :=
  ⟨Or.inl rfl, c9_synth_key_no_copy ctxEx 0 0 itemNoId (Or.inl rfl)⟩

/-! ## Claim C10 -/

/-- C10: the uploader accepts webp inputs and uses their filenames as
correlation keys, while the skip check only recognizes jpg, png and jpeg;
hence a job whose output directory contains only a webp artifact is not
skipped and performs its download call again on every invocation. -/
theorem c10_webp_not_recognized :
    uploaderAccepts "a.webp" = true ∧
    batchCustomIds ["a.webp"] = ["a.webp"] ∧
    recognizedImage "a.webp" = false ∧
    envWebp.dirExists = true ∧
    envWebp.listing = ["a.webp"] ∧
    (runJob ctxEx envWebp ⟨false, false⟩).skipped = false ∧
    (runJob ctxEx envWebp ⟨false, false⟩).networkCalls = 1 := by
  exact ⟨by decide, by decide, by decide, rfl, rfl, by decide, by decide⟩

end Pipeline
